import Mathlib

/-!
Verification of the connection-configuration and capability-negotiation core
of the django-sqlserver backend (`sqlserver/base.py`), against its
natural-language specification.

The Python module is shallowly embedded: dictionaries become association
lists over a small `PyVal` type of Python values, the module-level transport
selection becomes a function of the two availability flags, statements that
mutate `self` become explicit state passing, and code paths that raise become
`Except` results.  All definitions are translated from `sqlserver/base.py`;
the few places where behaviour of a collaborator outside this repository is
needed (Django's error wrapper, the `VERSION_SQL2008` constant of
`sqlserver_ado.base`) are modelled from the spec and marked as such.
-/

/-- A small universe of Python values appearing in settings dictionaries and
connection-parameter dictionaries: `None`, booleans, integers, strings, and
the `django.utils.timezone.utc` tzinfo singleton. -/
inductive PyVal where
  | none
  | bool (b : Bool)
  | int (n : Int)
  | str (s : String)
  | utc
  deriving DecidableEq

/-- Python truthiness (`bool(v)`) for the values of `PyVal`. -/
def PyVal.truthy : PyVal → Bool
  | .none => false
  | .bool b => b
  | .int n => n != 0
  | .str s => s != ""
  | .utc => true

/-- A Python dictionary with string keys, embedded as an association list
(first binding for a key wins; Python dicts have unique keys). -/
abbrev PyDict : Type := List (String × PyVal)

/-- `d[k]` as an option: the first binding of key `k`, if any. -/
def dictLookup (d : PyDict) (k : String) : Option PyVal :=
  match d with
  | [] => Option.none
  | p :: rest => if p.1 = k then some p.2 else dictLookup rest k

/-- Python `d.get(k, default)`. -/
def dictGet (d : PyDict) (k : String) (default : PyVal) : PyVal :=
  (dictLookup d k).getD default

/-- Python `k in d`. -/
def dictHasKey (d : PyDict) (k : String) : Bool :=
  (dictLookup d k).isSome

/-- Python `d[k] = v`: replace the binding if the key exists, append otherwise. -/
def dictSet (d : PyDict) (k : String) (v : PyVal) : PyDict :=
  if dictHasKey d k then
    d.map (fun p => if p.1 = k then (k, v) else p)
  else
    d ++ [(k, v)]

/-- The key list of a dictionary, in insertion order. -/
def dictKeys (d : PyDict) : List String := d.map Prod.fst

theorem dictLookup_isSome_iff_mem_keys (d : PyDict) (k : String) :
    (dictLookup d k).isSome = true ↔ k ∈ dictKeys d := by
  induction d with
  | nil => simp [dictLookup, dictKeys]
  | cons p rest ih =>
    by_cases h : p.1 = k
    · simp [dictLookup, dictKeys, h]
    · simp only [dictLookup, dictKeys, List.map_cons, List.mem_cons, if_neg h]
      rw [ih]
      constructor
      · intro hk
        exact Or.inr hk
      · intro hk
        cases hk with
        | inl hk => exact absurd hk.symm h
        | inr hk => exact hk

/-! ## Transport selection (`sqlserver/base.py` lines 15-31)

The module tries `import pytds` and `from sqlserver_ado import dbapi`,
binding each name to `None` on `ImportError`; it then binds the
process-global `Database` to `pytds` if available, else to `ado_dbapi`,
else raises ("Both ado and pytds are not available, ...").  The runtime
environment is abstracted by the two availability flags. -/

/-- The two candidate transport drivers. -/
inductive Transport where
  | pytds
  | ado
  deriving DecidableEq

/-- The error raised at module initialization when no transport is importable
(the spec's `ConfigurationError` for "no supported transport available"). -/
inductive TransportSelectionError where
  | noTransportAvailable
  deriving DecidableEq

/-- Lines 26-31: the module-level selection of the process-global `Database`
binding, as a function of which transports are importable. -/
def selectDatabase (pytdsAvailable adoAvailable : Bool) :
    Except TransportSelectionError Transport :=
  if pytdsAvailable then Except.ok Transport.pytds
  else if adoAvailable then Except.ok Transport.ado
  else Except.error TransportSelectionError.noTransportAvailable

/-- The fixed priority order of the spec: the native transport (`pytds`)
first, the legacy/compatibility transport (`ado`) second.  This definition
follows the spec's words, for the refinement statement of claim C1. -/
def transportPriority : List Transport := [Transport.pytds, Transport.ado]

/-- Whether a given transport is importable in an environment described by
the two availability flags. -/
def transportAvailable (pytdsAvailable adoAvailable : Bool) :
    Transport → Bool
  | Transport.pytds => pytdsAvailable
  | Transport.ado => adoAvailable

/-- The spec-side selector: the first available transport in priority order,
if any.  This definition follows the spec's words, for claim C1. -/
def firstAvailableTransport (pytdsAvailable adoAvailable : Bool) :
    Option Transport :=
  transportPriority.find? (transportAvailable pytdsAvailable adoAvailable)

/-! ## Timezone factory (`sqlserver/base.py` lines 53-56) -/

/-- The tzinfo values this backend can hand out: only the UTC marker. -/
inductive TzInfo where
  | utc
  deriving DecidableEq

/-- The `AssertionError` raised by `utc_tzinfo_factory` on a non-zero
offset. -/
inductive AssertionFailure where
  | databaseConnectionNotUTC
  deriving DecidableEq

/-- Lines 53-56: `utc_tzinfo_factory(offset)` raises an `AssertionError`
("database connection isn't set to UTC") unless `offset == 0`, in which case
it returns the `utc` marker. -/
def utc_tzinfo_factory (offset : Int) : Except AssertionFailure TzInfo :=
  if offset ≠ 0 then Except.error AssertionFailure.databaseConnectionNotUTC
  else Except.ok TzInfo.utc

/-! ## Cursor wrapper (`sqlserver/base.py` lines 59-73)

`_CursorWrapper.__init__` copies `cursor.execute` and `cursor.fetchall`
directly onto the wrapper (pass-through, no translation), while `__iter__`
runs the iteration inside `with self._error_wrapper`, so an exception raised
while pulling the next row is translated by the wrapper.  A raw cursor is
embedded by its observable behaviour: what `execute` and `fetchall` return
or raise, and the outcome of iterating it. -/

/-- The outcome of iterating a cursor: either all rows are yielded, or some
prefix of rows is yielded and then pulling the next row raises `e`. -/
inductive IterOutcome (ρ ε : Type) where
  | done (rows : List ρ)
  | failed (rows : List ρ) (e : ε)
  deriving DecidableEq

/-- A raw driver cursor, by observable behaviour: `σ` is the result type of
`execute`, `ρ` the row type, `ε` the driver's exception type. -/
structure RawCursor (σ ρ ε : Type) where
  execute : String → Except ε σ
  fetchall : Except ε (List ρ)
  iterate : IterOutcome ρ ε

/-- A framework-level database error produced by Django's
`wrap_database_errors` context manager.  Modelled from the spec: the error
wrapper itself lives in Django, outside this repository; the spec says any
exception raised while pulling the next row "is caught and re-raised as a
framework-level `InterfaceError`-class error instead of the raw transport
exception". -/
inductive DjangoDbError (ε : Type) where
  | interfaceError (raw : ε)
  deriving DecidableEq

/-- Modelled from the spec: Django's `wrap_database_errors` translation of a
raw driver exception into the framework-level error taxonomy. -/
def wrap_database_errors {ε : Type} (e : ε) : DjangoDbError ε :=
  DjangoDbError.interfaceError e

/-- Whether a framework-level error is of the `InterfaceError` class. -/
def DjangoDbError.isInterfaceError {ε : Type} : DjangoDbError ε → Bool
  | DjangoDbError.interfaceError _ => true

/-- Lines 59-65: the wrapper object; `execute` and `fetchall` are the raw
cursor's bound methods, copied verbatim in `__init__`. -/
structure CursorWrapper (σ ρ ε : Type) where
  _cursor : RawCursor σ ρ ε
  execute : String → Except ε σ
  fetchall : Except ε (List ρ)

/-- Lines 61-65: `_CursorWrapper.__init__(cursor, error_wrapper)`. -/
def CursorWrapper.mk' {σ ρ ε : Type} (cursor : RawCursor σ ρ ε) :
    CursorWrapper σ ρ ε :=
  { _cursor := cursor, execute := cursor.execute, fetchall := cursor.fetchall }

/-- Lines 70-73: `_CursorWrapper.__iter__`, which iterates the raw cursor
inside `with self._error_wrapper`: rows yielded before a failure pass
through unchanged, and the failure is translated. -/
def CursorWrapper.iterate {σ ρ ε : Type} (w : CursorWrapper σ ρ ε) :
    IterOutcome ρ (DjangoDbError ε) :=
  match w._cursor.iterate with
  | IterOutcome.done rows => IterOutcome.done rows
  | IterOutcome.failed rows e => IterOutcome.failed rows (wrap_database_errors e)

/-! ## Capability flags (`sqlserver/base.py` lines 76-148)

The Bool class attributes of `DatabaseFeatures`, with their class-body
values as defaults.  `failing_tests` (test metadata), the
`closed_cursor_error_class` class reference and the `has_zoneinfo_database`
cached property (a function of the `pytz` import) carry no Bool capability
state mutated by this module and are omitted.
`supports_microsecond_precision` is inherited from
`sqlserver_ado.base.DatabaseFeatures`, outside this repository; modelled
from the spec, which says the legacy transport lacks the finer time
precision, so its inherited default is `false`. -/
structure DatabaseFeatures where
  uses_custom_query_class : Bool := true
  has_bulk_insert : Bool := true
  supports_timezones : Bool := false
  supports_sequence_reset : Bool := false
  can_return_id_from_insert : Bool := true
  supports_regex_backreferencing : Bool := false
  supports_tablespaces : Bool := true
  ignores_nulls_in_unique_constraints : Bool := false
  supports_nullable_unique_constraints : Bool := false
  supports_partially_nullable_unique_constraints : Bool := false
  can_introspect_autofield : Bool := true
  can_introspect_small_integer_field : Bool := true
  supports_subqueries_in_group_by : Bool := false
  allow_sliced_subqueries : Bool := false
  uses_savepoints : Bool := true
  supports_paramstyle_pyformat : Bool := false
  requires_literal_defaults : Bool := true
  has_select_for_update : Bool := true
  has_select_for_update_nowait : Bool := false
  supports_microsecond_precision : Bool := false
  deriving DecidableEq

/-- The class-body defaults of `DatabaseFeatures`. -/
def defaultFeatures : DatabaseFeatures := {}

/-- Pointwise widening order on capability flags: every flag granted in `a`
is still granted in `b`. -/
def featuresLE (a b : DatabaseFeatures) : Prop :=
  (a.uses_custom_query_class = true → b.uses_custom_query_class = true)
  ∧ (a.has_bulk_insert = true → b.has_bulk_insert = true)
  ∧ (a.supports_timezones = true → b.supports_timezones = true)
  ∧ (a.supports_sequence_reset = true → b.supports_sequence_reset = true)
  ∧ (a.can_return_id_from_insert = true → b.can_return_id_from_insert = true)
  ∧ (a.supports_regex_backreferencing = true → b.supports_regex_backreferencing = true)
  ∧ (a.supports_tablespaces = true → b.supports_tablespaces = true)
  ∧ (a.ignores_nulls_in_unique_constraints = true → b.ignores_nulls_in_unique_constraints = true)
  ∧ (a.supports_nullable_unique_constraints = true → b.supports_nullable_unique_constraints = true)
  ∧ (a.supports_partially_nullable_unique_constraints = true → b.supports_partially_nullable_unique_constraints = true)
  ∧ (a.can_introspect_autofield = true → b.can_introspect_autofield = true)
  ∧ (a.can_introspect_small_integer_field = true → b.can_introspect_small_integer_field = true)
  ∧ (a.supports_subqueries_in_group_by = true → b.supports_subqueries_in_group_by = true)
  ∧ (a.allow_sliced_subqueries = true → b.allow_sliced_subqueries = true)
  ∧ (a.uses_savepoints = true → b.uses_savepoints = true)
  ∧ (a.supports_paramstyle_pyformat = true → b.supports_paramstyle_pyformat = true)
  ∧ (a.requires_literal_defaults = true → b.requires_literal_defaults = true)
  ∧ (a.has_select_for_update = true → b.has_select_for_update = true)
  ∧ (a.has_select_for_update_nowait = true → b.has_select_for_update_nowait = true)
  ∧ (a.supports_microsecond_precision = true → b.supports_microsecond_precision = true)

/-! ## Connection parameters (`sqlserver/base.py` lines 50, 181-206)

`get_connection_params_pytds` reads `self.settings_dict` (HOST, NAME, USER,
PASSWORD, OPTIONS), `self.command_timeout` (set by the `sqlserver_ado` base
class from the settings' command-timeout option) and the global Django
setting `USE_TZ`, builds the `conn_params` dict, copies every
`_SUPPORTED_OPTIONS` key present in OPTIONS into it, and assigns
`self.tzinfo_factory` as a side effect.  The method is embedded as an
explicit state transformer on the wrapper state. -/

/-- Line 50: the allow-list of extra OPTIONS keys copied into the
connection parameters. -/
def _SUPPORTED_OPTIONS : List String := ["failover_partner"]

/-- The Django `settings_dict` fields this backend reads. -/
structure SettingsDict where
  host : String
  name : String
  user : String
  password : String
  options : PyDict
  deriving DecidableEq

/-- The tzinfo-factory values `self.tzinfo_factory` can hold: line 204
assigns either `utc_tzinfo_factory` or `None`. -/
inductive TzInfoFactory where
  | utcFactory
  deriving DecidableEq

/-- The state of a `DatabaseWrapper` read or written by
`get_connection_params_pytds`: its settings, the `command_timeout`
attribute inherited from the `sqlserver_ado` base class, the global
`settings.USE_TZ` flag, and the mutable `tzinfo_factory` attribute. -/
structure WrapperState where
  settings_dict : SettingsDict
  command_timeout : Int
  use_tz : Bool
  tzinfo_factory : Option TzInfoFactory
  deriving DecidableEq

/-- Lines 181-206: `get_connection_params_pytds`.  Returns the
`conn_params` dict and the post-call wrapper state (the method assigns
`self.tzinfo_factory` before returning). -/
def get_connection_params_pytds (st : WrapperState) :
    PyDict × WrapperState :=
  let settings_dict := st.settings_dict
  let options := settings_dict.options
  let autocommit := dictGet options "autocommit" (PyVal.bool false)
  let conn_params : PyDict := [
    ("server", PyVal.str settings_dict.host),
    ("database", PyVal.str settings_dict.name),
    ("user", PyVal.str settings_dict.user),
    ("password", PyVal.str settings_dict.password),
    ("timeout", PyVal.int st.command_timeout),
    ("autocommit", autocommit),
    ("use_mars", dictGet options "use_mars" (PyVal.bool false)),
    ("load_balancer", dictGet options "load_balancer" PyVal.none),
    ("failover_partner", dictGet options "failover_partner" PyVal.none),
    ("use_tz", if st.use_tz then PyVal.utc else PyVal.none)]
  let conn_params := _SUPPORTED_OPTIONS.foldl
    (fun acc opt =>
      if dictHasKey options opt then dictSet acc opt (dictGet options opt PyVal.none)
      else acc)
    conn_params
  let st' := { st with
    tzinfo_factory :=
      if st.use_tz then some TzInfoFactory.utcFactory else Option.none }
  (conn_params, st')

/-- The full key list of the pytds connection parameters produced by
`get_connection_params_pytds`, in insertion order. -/
def pytdsParamKeys : List String :=
  ["server", "database", "user", "password", "timeout", "autocommit",
   "use_mars", "load_balancer", "failover_partner", "use_tz"]

/-! ## Connection initialization (`sqlserver/base.py` lines 214-240)

`init_connection_state` probes the server version (warning, never raising,
when the version string has no parsable integer major component, and
warning when the major version is below `VERSION_SQL2008`), then refines
the feature flags: the pytds transport grants `supports_paramstyle_pyformat`
and `supports_microsecond_precision`, and the
`allow_nulls_in_unique_constraints` option (default `True` when absent)
grants `ignores_nulls_in_unique_constraints`. -/

/-- The characters of `s.split('.')[0]`: everything before the first `.`
(`str.split` always yields at least one part, so index 0 never raises). -/
def takeUntilDot : List Char → List Char
  | [] => []
  | c :: cs => if c = '.' then [] else c :: takeUntilDot cs

/-- Python `s.split('.', 2)[0]` as a string. -/
def headBeforeDot (s : String) : String :=
  String.mk (takeUntilDot s.toList)

/-- Surrounding-whitespace stripping, as Python `int` performs before
parsing. -/
def trimChars (cs : List Char) : List Char :=
  ((cs.dropWhile Char.isWhitespace).reverse.dropWhile Char.isWhitespace).reverse

/-- The value of a nonempty all-decimal-digit character list, `none`
otherwise. -/
def decimalDigitsValue : List Char → Option Nat
  | [] => Option.none
  | cs =>
    if cs.all Char.isDigit then
      some (cs.foldl (fun n c => n * 10 + (c.toNat - 48)) 0)
    else Option.none

/-- Python `int(s)` on a string, as an option: `none` models the
`ValueError` branch.  `int` strips surrounding whitespace and accepts an
optional sign followed by decimal digits (Unicode digits and the `_`
separators of Python 3.6+ do not occur in DBMS version strings). -/
def pyInt (s : String) : Option Int :=
  match trimChars s.toList with
  | [] => Option.none
  | c :: cs =>
    if c = '-' then (decimalDigitsValue cs).map (fun n => -(n : Int))
    else if c = '+' then (decimalDigitsValue cs).map (fun n => (n : Int))
    else (decimalDigitsValue (c :: cs)).map (fun n => (n : Int))

/-- Modelled from the spec: `sqlserver_ado.base.VERSION_SQL2008`, the
minimum-supported major version threshold, lives outside this repository;
SQL Server 2008 is major version 10. -/
def VERSION_SQL2008 : Int := 10

/-- The warnings `init_connection_state` can emit via `warnings.warn`
(both with category `DeprecationWarning`). -/
inductive ProbeWarning where
  | unableToDetermineVersion
  | versionNoLongerSupported
  deriving DecidableEq

/-- Lines 223-234: the version probe.  `int(version.split('.', 2)[0])`
raises `ValueError` on an unparsable major component, which the
`try/except` downgrades to a warning; a parsed major version below
`VERSION_SQL2008` yields a deprecation warning.  Feature flags are not
touched on any path. -/
def versionProbeWarnings (rawVersion : String) : List ProbeWarning :=
  match pyInt (headBeforeDot rawVersion) with
  | Option.none => [ProbeWarning.unableToDetermineVersion]
  | some sql_version =>
    if sql_version < VERSION_SQL2008 then [ProbeWarning.versionNoLongerSupported]
    else []

/-- Lines 235-238: the pytds-transport refinement of the feature flags. -/
def refineTransportFeatures (databaseIsPytds : Bool)
    (features : DatabaseFeatures) : DatabaseFeatures :=
  if databaseIsPytds then
    { features with
      supports_paramstyle_pyformat := true
      supports_microsecond_precision := true }
  else features

/-- Lines 239-240: the option-override refinement of the feature flags
(`OPTIONS.get("allow_nulls_in_unique_constraints", True)` under Python
truthiness). -/
def refineOptionFeatures (options : PyDict)
    (features : DatabaseFeatures) : DatabaseFeatures :=
  if (dictGet options "allow_nulls_in_unique_constraints" (PyVal.bool true)).truthy then
    { features with ignores_nulls_in_unique_constraints := true }
  else features

/-- The inputs `init_connection_state` reads: the current feature flags,
the settings OPTIONS dict, whether the process-global `Database` is pytds,
and the raw DBMS version string the probe obtains from the connection. -/
structure InitInput where
  features : DatabaseFeatures
  options : PyDict
  databaseIsPytds : Bool
  rawVersion : String

/-- Lines 214-240: `init_connection_state`, returning the refined feature
flags and the warnings emitted.  The function is total: no exception
escapes on any probe outcome. -/
def init_connection_state (inp : InitInput) :
    DatabaseFeatures × List ProbeWarning :=
  (refineOptionFeatures inp.options
    (refineTransportFeatures inp.databaseIsPytds inp.features),
   versionProbeWarnings inp.rawVersion)

/-! ## `is_usable` (`sqlserver/base.py` lines 262-270)

`is_usable` opens a raw driver cursor (`self.connection.cursor()`,
bypassing `create_cursor` and the error-wrapping pipeline) and executes
`SELECT 1` inside a bare `try/except`: any exception yields `False`,
success yields `True`.  The round-trip outcome is the input. -/

/-- Lines 262-270: `is_usable`, as a function of the outcome of executing
`SELECT 1` on a raw cursor.  Total: it returns a `Bool` for every outcome
and can propagate no exception. -/
def is_usable {ε : Type} (roundTrip : Except ε Unit) : Bool :=
  match roundTrip with
  | Except.error _ => false
  | Except.ok _ => true

/-! ## Claims -/

/-- Claim C1: transport selection is deterministic over the set of available
transports: for every environment, the selected process-global `Database` is
exactly the first available transport in the fixed priority order (pytds
first, then the ado/legacy transport); if neither transport is importable,
module initialization fails with the configuration error rather than
selecting anything. -/
theorem transport_selection_first_available :
    ∀ pytdsAvailable adoAvailable : Bool,
      (∀ t : Transport,
        selectDatabase pytdsAvailable adoAvailable = Except.ok t ↔
          firstAvailableTransport pytdsAvailable adoAvailable = some t)
      ∧ (selectDatabase pytdsAvailable adoAvailable =
            Except.error TransportSelectionError.noTransportAvailable ↔
          firstAvailableTransport pytdsAvailable adoAvailable = Option.none) := by
  intro p a
  constructor
  · intro t
    cases p <;> cases a <;> cases t <;>
      simp [selectDatabase, firstAvailableTransport, transportPriority,
        transportAvailable, List.find?]
  · cases p <;> cases a <;>
      simp [selectDatabase, firstAvailableTransport, transportPriority,
        transportAvailable, List.find?]

/-- Claim C3: the UTC timezone-info factory returns the UTC marker when
called with offset 0, and raises an `AssertionError`-class validation error
when called with any non-zero offset; these are the only two behaviors for
every integer offset. -/
theorem utc_tzinfo_factory_offset_spec :
    ∀ offset : Int,
      (offset = 0 → utc_tzinfo_factory offset = Except.ok TzInfo.utc)
      ∧ (offset ≠ 0 →
          utc_tzinfo_factory offset =
            Except.error AssertionFailure.databaseConnectionNotUTC) := by
  intro offset
  constructor
  · intro h
    simp [utc_tzinfo_factory, h]
  · intro h
    simp [utc_tzinfo_factory, h]

/-- Witness for claim C3 at the concrete offsets 0 and 5. -/
theorem utc_tzinfo_factory_offset_spec_witness :
    utc_tzinfo_factory 0 = Except.ok TzInfo.utc
    ∧ utc_tzinfo_factory 5 =
        Except.error AssertionFailure.databaseConnectionNotUTC :=
  ⟨(utc_tzinfo_factory_offset_spec 0).1 rfl,
   (utc_tzinfo_factory_offset_spec 5).2 (by decide)⟩

/-- Claim C5: `is_usable` never propagates an exception: for every behavior
of the underlying `SELECT 1` round trip on a raw cursor, it returns `false`
exactly when the round trip raises and `true` exactly when it succeeds. -/
theorem is_usable_total_boolean :
    ∀ (ε : Type) (roundTrip : Except ε Unit),
      (is_usable roundTrip = false ↔ ∃ e, roundTrip = Except.error e)
      ∧ (is_usable roundTrip = true ↔ roundTrip = Except.ok ()) := by
  intro ε roundTrip
  cases roundTrip with
  | error e => simp [is_usable]
  | ok u =>
    cases u
    simp [is_usable]

/-- Claim C6: the cursor wrapper is asymmetric by design: `execute` and
`fetchall` are forwarded to the raw cursor without any error translation,
while every exception raised during row iteration is caught by the error
wrapper and re-raised as a framework-level `InterfaceError`-class error
(carrying the raw exception) instead of the raw transport exception; rows
yielded before the failure pass through unchanged. -/
theorem cursor_wrapper_asymmetric_translation :
    ∀ (σ ρ ε : Type) (cursor : RawCursor σ ρ ε),
      (CursorWrapper.mk' cursor).execute = cursor.execute
      ∧ (CursorWrapper.mk' cursor).fetchall = cursor.fetchall
      ∧ (∀ rows : List ρ,
          cursor.iterate = IterOutcome.done rows →
            (CursorWrapper.mk' cursor).iterate = IterOutcome.done rows)
      ∧ (∀ (rows : List ρ) (e : ε),
          cursor.iterate = IterOutcome.failed rows e →
            (CursorWrapper.mk' cursor).iterate =
                IterOutcome.failed rows (DjangoDbError.interfaceError e)
            ∧ (DjangoDbError.interfaceError e).isInterfaceError = true) := by
  intro σ ρ ε cursor
  refine ⟨rfl, rfl, ?_, ?_⟩
  · intro rows h
    simp [CursorWrapper.iterate, CursorWrapper.mk', h]
  · intro rows e h
    constructor
    · simp [CursorWrapper.iterate, CursorWrapper.mk', h, wrap_database_errors]
    · rfl

/-- Witness for claim C6: a concrete raw cursor whose iteration yields one
row and then raises the driver exception "socket closed". -/
def witnessRawCursor : RawCursor Unit Nat String :=
  { execute := fun _ => Except.ok ()
    fetchall := Except.ok [1, 2]
    iterate := IterOutcome.failed [1] "socket closed" }

/-- Witness for claim C6 at `witnessRawCursor`. -/
theorem cursor_wrapper_asymmetric_translation_witness :
    (CursorWrapper.mk' witnessRawCursor).iterate =
        IterOutcome.failed [1] (DjangoDbError.interfaceError "socket closed")
    ∧ (CursorWrapper.mk' witnessRawCursor).fetchall = Except.ok [1, 2] :=
  ⟨((cursor_wrapper_asymmetric_translation Unit Nat String
      witnessRawCursor).2.2.2 [1] "socket closed" rfl).1,
   (cursor_wrapper_asymmetric_translation Unit Nat String
      witnessRawCursor).2.1⟩

theorem get_connection_params_pytds_keys (st : WrapperState) :
    dictKeys (get_connection_params_pytds st).1 = pytdsParamKeys := by
  by_cases h : dictHasKey st.settings_dict.options "failover_partner" = true
  · simp [get_connection_params_pytds, _SUPPORTED_OPTIONS, List.foldl, h,
      dictSet, dictHasKey, dictLookup, dictKeys, pytdsParamKeys]
  · simp [get_connection_params_pytds, _SUPPORTED_OPTIONS, List.foldl, h,
      dictKeys, pytdsParamKeys]

/-- Claim C2: for every OPTIONS mapping containing both allow-listed and
unknown keys, the connection parameters produced by the pytds parameter
builder contain exactly the fixed/allow-listed keys, and every allow-listed
OPTIONS key present is forwarded with its value unchanged; unknown keys
never appear. -/
theorem conn_params_option_allowlist_filtering :
    ∀ st : WrapperState,
      (∀ k : String,
        (dictLookup (get_connection_params_pytds st).1 k).isSome = true ↔
          k ∈ pytdsParamKeys)
      ∧ (∀ (k : String) (v : PyVal), k ∈ _SUPPORTED_OPTIONS →
          dictLookup st.settings_dict.options k = some v →
          dictLookup (get_connection_params_pytds st).1 k = some v) := by
  intro st
  constructor
  · intro k
    rw [dictLookup_isSome_iff_mem_keys, get_connection_params_pytds_keys]
  · intro k v hk hv
    simp only [_SUPPORTED_OPTIONS, List.mem_singleton] at hk
    subst hk
    have hhas : dictHasKey st.settings_dict.options "failover_partner" = true := by
      simp [dictHasKey, hv]
    simp [get_connection_params_pytds, _SUPPORTED_OPTIONS, List.foldl, hhas,
      dictSet, dictHasKey, dictGet, hv, dictLookup]

/-- The spec's scenario settings: host db1, database orders, user svc,
password x, timeout 30, autocommit false, and an OPTIONS mapping holding
the allow-listed key failover_partner and the unknown key bogus_key. -/
def scenarioState : WrapperState :=
  { settings_dict :=
      { host := "db1", name := "orders", user := "svc", password := "x",
        options := [("failover_partner", PyVal.str "db2"),
                    ("bogus_key", PyVal.str "z")] }
    command_timeout := 30
    use_tz := false
    tzinfo_factory := Option.none }

/-- Witness for claim C2 at the spec's scenario: the produced parameters
carry failover_partner "db2" and timeout 30 and have no bogus_key entry. -/
theorem conn_params_option_allowlist_filtering_witness :
    dictLookup (get_connection_params_pytds scenarioState).1 "failover_partner"
        = some (PyVal.str "db2")
    ∧ dictLookup (get_connection_params_pytds scenarioState).1 "timeout"
        = some (PyVal.int 30)
    ∧ dictLookup (get_connection_params_pytds scenarioState).1 "bogus_key"
        = Option.none := by
  refine ⟨(conn_params_option_allowlist_filtering scenarioState).2
      "failover_partner" (PyVal.str "db2") (by decide) (by decide),
    by decide, ?_⟩
  have h := (conn_params_option_allowlist_filtering scenarioState).1 "bogus_key"
  have hnot : ¬ ("bogus_key" ∈ pytdsParamKeys) := by decide
  cases ho : dictLookup (get_connection_params_pytds scenarioState).1 "bogus_key" with
  | none => rfl
  | some v =>
    exact absurd (h.mp (by simp [ho])) hnot

/-- Claim C4: version probing during connection initialization is non-fatal
for every probe outcome: an unparsable raw version string yields the
"unable to determine version" warning and nothing else, a parsed major
version below the minimum-supported threshold yields the deprecation
warning, and the resulting capability flags are independent of the raw
version string (they keep their pre-probe values on probe failure);
`init_connection_state` is a total function, so no exception escapes. -/
theorem version_probe_nonfatal :
    ∀ inp : InitInput,
      (pyInt (headBeforeDot inp.rawVersion) = Option.none →
        (init_connection_state inp).2 = [ProbeWarning.unableToDetermineVersion])
      ∧ (∀ v : Int, pyInt (headBeforeDot inp.rawVersion) = some v →
          v < VERSION_SQL2008 →
          (init_connection_state inp).2 = [ProbeWarning.versionNoLongerSupported])
      ∧ (∀ v : String,
          (init_connection_state { inp with rawVersion := v }).1 =
            (init_connection_state inp).1) := by
  intro inp
  refine ⟨?_, ?_, ?_⟩
  · intro h
    simp [init_connection_state, versionProbeWarnings, h]
  · intro v hv hlt
    simp [init_connection_state, versionProbeWarnings, hv, hlt]
  · intro v
    rfl

/-- Witness input for claim C4: an unparsable raw version string. -/
def probeInputGarbage : InitInput :=
  { features := defaultFeatures, options := [], databaseIsPytds := true,
    rawVersion := "garbage" }

/-- Witness input for claim C4: a parsable raw version below the
minimum-supported threshold. -/
def probeInputOld : InitInput :=
  { probeInputGarbage with rawVersion := "8.0.1234" }

/-- Witness for claim C4 at concrete probe outcomes. -/
theorem version_probe_nonfatal_witness :
    (init_connection_state probeInputGarbage).2 =
        [ProbeWarning.unableToDetermineVersion]
    ∧ (init_connection_state probeInputOld).2 =
        [ProbeWarning.versionNoLongerSupported]
    ∧ (init_connection_state { probeInputOld with rawVersion := "garbage" }).1 =
        (init_connection_state probeInputOld).1 :=
  ⟨(version_probe_nonfatal probeInputGarbage).1 (by decide),
   (version_probe_nonfatal probeInputOld).2.1 8 (by decide) (by decide),
   (version_probe_nonfatal probeInputOld).2.2 "garbage"⟩

/-- Claim C9: capability refinement is monotone: both refinement steps of
`init_connection_state` (the transport refinement and the option-override
refinement) only widen capability flags, never reverting a flag already
granted back to false. -/
theorem capability_refinement_monotone :
    ∀ inp : InitInput,
      featuresLE inp.features
        (refineTransportFeatures inp.databaseIsPytds inp.features)
      ∧ featuresLE (refineTransportFeatures inp.databaseIsPytds inp.features)
          (init_connection_state inp).1
      ∧ featuresLE inp.features (init_connection_state inp).1 := by
  intro inp
  refine ⟨?_, ?_, ?_⟩ <;>
    simp only [featuresLE, init_connection_state, refineTransportFeatures,
      refineOptionFeatures] <;>
    split_ifs <;> simp_all

/-- Claim C10: starting from the class defaults, when OPTIONS does not
contain `allow_nulls_in_unique_constraints`, connection initialization
still sets `ignores_nulls_in_unique_constraints` to true (absence of the
override is treated as enabled), overriding the class default of false;
when the caller explicitly supplies the option, the resulting flag is the
truthiness of the supplied value, so it stays false exactly when a false
value is supplied. -/
theorem allow_nulls_option_absent_enables :
    ∀ (options : PyDict) (databaseIsPytds : Bool) (rawVersion : String),
      (dictLookup options "allow_nulls_in_unique_constraints" = Option.none →
        (init_connection_state
          { features := defaultFeatures, options := options,
            databaseIsPytds := databaseIsPytds, rawVersion := rawVersion
          }).1.ignores_nulls_in_unique_constraints = true)
      ∧ (∀ v : PyVal,
          dictLookup options "allow_nulls_in_unique_constraints" = some v →
          (init_connection_state
            { features := defaultFeatures, options := options,
              databaseIsPytds := databaseIsPytds, rawVersion := rawVersion
            }).1.ignores_nulls_in_unique_constraints = v.truthy) := by
  intro options databaseIsPytds rawVersion
  constructor
  · intro h
    simp [init_connection_state, refineOptionFeatures, refineTransportFeatures,
      dictGet, h, PyVal.truthy]
  · intro v hv
    cases htruthy : v.truthy with
    | true =>
      simp [init_connection_state, refineOptionFeatures,
        refineTransportFeatures, dictGet, hv, htruthy]
    | false =>
      simp only [init_connection_state, refineOptionFeatures,
        refineTransportFeatures, dictGet, hv, htruthy, Option.getD_some,
        Bool.false_eq_true, if_false]
      split_ifs <;> simp [defaultFeatures]

/-- Witness for claim C10: absent option versus an explicit false value. -/
theorem allow_nulls_option_absent_enables_witness :
    (init_connection_state
      { features := defaultFeatures, options := [], databaseIsPytds := false,
        rawVersion := "10.50.4000"
      }).1.ignores_nulls_in_unique_constraints = true
    ∧ (init_connection_state
      { features := defaultFeatures,
        options := [("allow_nulls_in_unique_constraints", PyVal.bool false)],
        databaseIsPytds := false, rawVersion := "10.50.4000"
      }).1.ignores_nulls_in_unique_constraints = false :=
  ⟨(allow_nulls_option_absent_enables [] false "10.50.4000").1 rfl,
   (allow_nulls_option_absent_enables
      [("allow_nulls_in_unique_constraints", PyVal.bool false)] false
      "10.50.4000").2 (PyVal.bool false) (by decide)⟩

/-- A wrapper state with `USE_TZ` enabled and no tzinfo factory assigned
yet. -/
def tzStateBefore : WrapperState :=
  { settings_dict :=
      { host := "db1", name := "orders", user := "svc", password := "x",
        options := [] }
    command_timeout := 30
    use_tz := true
    tzinfo_factory := Option.none }

/-- Counterexample to claim C7 as stated: `get_connection_params_pytds` is
not free of side effects on the session.  At this concrete state it
mutates the wrapper: line 204 assigns `self.tzinfo_factory`. -/
theorem conn_params_builder_side_effect_counterexample :
    (get_connection_params_pytds tzStateBefore).2 ≠ tzStateBefore := by
  decide

/-- Claim C7 (amended): building connection parameters is deterministic in
the settings and idempotent —  calling it again on the post-call session
state produces identical ConnectionParams and leaves the state fixed — but
it is not side-effect-free: its one side effect on the session is
assigning `tzinfo_factory` (the UTC factory when `USE_TZ` is set, `None`
otherwise). -/
theorem conn_params_builder_deterministic_idempotent :
    ∀ st : WrapperState,
      (get_connection_params_pytds ((get_connection_params_pytds st).2)).1 =
        (get_connection_params_pytds st).1
      ∧ (get_connection_params_pytds ((get_connection_params_pytds st).2)).2 =
          (get_connection_params_pytds st).2
      ∧ (get_connection_params_pytds st).2 =
          { st with
            tzinfo_factory :=
              if st.use_tz then some TzInfoFactory.utcFactory
              else Option.none } := by
  intro st
  exact ⟨rfl, rfl, rfl⟩

/-- A wrapper state whose settings carry an empty host. -/
def emptyHostState : WrapperState :=
  { settings_dict :=
      { host := "", name := "orders", user := "svc", password := "x",
        options := [] }
    command_timeout := 30
    use_tz := false
    tzinfo_factory := Option.none }

/-- Counterexample to claim C8 as stated: with an empty required field
(host) the pytds parameter builder raises nothing and still produces the
full ConnectionParams, forwarding the empty host as `server`. -/
theorem conn_params_builder_no_validation_counterexample :
    (get_connection_params_pytds emptyHostState).1 =
      [("server", PyVal.str ""), ("database", PyVal.str "orders"),
       ("user", PyVal.str "svc"), ("password", PyVal.str "x"),
       ("timeout", PyVal.int 30), ("autocommit", PyVal.bool false),
       ("use_mars", PyVal.bool false), ("load_balancer", PyVal.none),
       ("failover_partner", PyVal.none), ("use_tz", PyVal.none)] := by
  decide

/-- Claim C8 (amended): building connection parameters performs no
non-emptiness validation of host, database, or user: for every settings
state, including ones with empty required fields, it produces
ConnectionParams and forwards the three fields unchanged. -/
theorem conn_params_builder_forwards_required_fields :
    ∀ st : WrapperState,
      dictLookup (get_connection_params_pytds st).1 "server" =
        some (PyVal.str st.settings_dict.host)
      ∧ dictLookup (get_connection_params_pytds st).1 "database" =
          some (PyVal.str st.settings_dict.name)
      ∧ dictLookup (get_connection_params_pytds st).1 "user" =
          some (PyVal.str st.settings_dict.user) := by
  intro st
  by_cases h : dictHasKey st.settings_dict.options "failover_partner" = true <;>
    refine ⟨?_, ?_, ?_⟩ <;>
      simp [get_connection_params_pytds, _SUPPORTED_OPTIONS, List.foldl, h,
        dictSet, dictHasKey, dictLookup]
